import Mathlib

/-!
# Work estimator configuration (`k8s.io/apiserver/pkg/util/flowcontrol/request/config.go`)

A shallow embedding of the configuration model of the request work estimator:
the three configuration structs, the package constants and the package
variable, the three default constructors and the duration accessor.

Conventions of the embedding

* A Go pointer `*T` is `Ptr T = Option T`: `none` is `nil`, `some v` is a
  pointer to a cell holding `v`.  Value equality of pointed-to structs is
  equality of the `Option`s.
* The only package-level variable, `eventAdditionalDuration`, lives in
  `Globals`.  Every operation takes the globals and hands them back, so that
  "does not write the variable" is a statement about the operation.
* A run-time panic is an `Except.error`.
-/

set_option linter.dupNamespace false

namespace time

/-- Modelled from the spec: Go `time.Duration`, a signed count of nanoseconds
(the type declaration is in the Go standard library). -/
abbrev Duration := Int

/-- Modelled from the spec: `time.Nanosecond`, the unit of `time.Duration`. -/
def Nanosecond : Duration := 1

/-- Modelled from the spec: `time.Microsecond = 1000 * Nanosecond`. -/
def Microsecond : Duration := 1000 * Nanosecond

/-- Modelled from the spec: `time.Millisecond = 1000 * Microsecond`. -/
def Millisecond : Duration := 1000 * Microsecond

/-- Modelled from the spec: `time.Second = 1000 * Millisecond`. -/
def Second : Duration := 1000 * Millisecond

end time

namespace metav1

/-- Modelled from the spec: `metav1.Duration`, the wrapper
`struct { time.Duration }` that gives a duration its unit-qualified external
form (declared in `k8s.io/apimachinery/pkg/apis/meta/v1`). -/
structure Duration where
  Duration : time.Duration
deriving DecidableEq, Repr

end metav1

namespace request

/-- Go `float64` values as far as this package needs them: a finite value is
carried as the rational number it denotes, next to the two infinities and NaN.
The package does no floating-point arithmetic; it only stores values. -/
inductive float64
  | num (q : ℚ)
  | posInf
  | negInf
  | nan
deriving DecidableEq, Repr

/-- Conversion of an untyped Go constant to `float64`.  Go rounds to the
nearest representable value; the constants of this package (`100.0`, `10.0`)
are integers below `2^53` and hence converted exactly. -/
def float64.ofConst (q : ℚ) : float64 := float64.num q

/-- The Go comparison `x > 0` on `float64` (false on NaN). -/
def float64.isPositive : float64 → Bool
  | float64.num q => decide (0 < q)
  | float64.posInf => true
  | float64.negInf => false
  | float64.nan => false

/-- Go pointer `*T`: `none` is `nil`. -/
abbrev Ptr (α : Type) := Option α

/-- Run-time panics this package can raise. -/
inductive Panic
  | nilPointerDereference
deriving DecidableEq, Repr

/-! ## Package constants (`const ( ... )`, lines 25-31) -/

def minimumSeats : Nat := 1
def maximumSeats : Nat := 10
def objectsPerSeat : ℚ := 100.0
def watchesPerSeat : ℚ := 10.0
def enableMutatingWorkEstimator : Bool := true

/-- The package-level variables.  `eventAdditionalDuration` is declared with
`var`, not `const`, so it is part of the mutable program state. -/
structure Globals where
  eventAdditionalDuration : time.Duration
deriving DecidableEq, Repr

/-- The globals after package initialisation:
`var eventAdditionalDuration = 5 * time.Millisecond`. -/
def Globals.init : Globals :=
  { eventAdditionalDuration := 5 * time.Millisecond }

/-! ## Data model (lines 35-63) -/

/-- ListWorkEstimatorConfig holds work estimator parameters related to list requests. -/
structure ListWorkEstimatorConfig where
  ObjectsPerSeat : float64
deriving DecidableEq, Repr

/-- MutatingWorkEstimatorConfig holds work estimator parameters related to
watches of mutating objects. -/
structure MutatingWorkEstimatorConfig where
  Enabled : Bool
  EventAdditionalDuration : metav1.Duration
  WatchesPerSeat : float64
deriving DecidableEq, Repr

/-- WorkEstimatorConfig holds work estimator parameters.  The two embedded
pointer fields carry the names of their types, as in Go. -/
structure WorkEstimatorConfig where
  ListWorkEstimatorConfig : Ptr request.ListWorkEstimatorConfig
  MutatingWorkEstimatorConfig : Ptr request.MutatingWorkEstimatorConfig
  MinimumSeats : Nat
  MaximumSeats : Nat
deriving DecidableEq, Repr

/-! ## Operations (lines 65-92) -/

/-- The function defaultListWorkEstimatorConfig creates a new
ListWorkEstimatorConfig with default values. -/
def defaultListWorkEstimatorConfig (g : Globals) : Ptr ListWorkEstimatorConfig × Globals :=
  (some { ObjectsPerSeat := float64.ofConst objectsPerSeat }, g)

/-- The function defaultMutatingWorkEstimatorConfig creates a new
MutatingWorkEstimatorConfig with default values; the duration is read from the
package variable. -/
def defaultMutatingWorkEstimatorConfig (g : Globals) :
    Ptr MutatingWorkEstimatorConfig × Globals :=
  (some { Enabled := enableMutatingWorkEstimator
          EventAdditionalDuration := { Duration := g.eventAdditionalDuration }
          WatchesPerSeat := float64.ofConst watchesPerSeat }, g)

/-- The function DefaultWorkEstimatorConfig creates a new WorkEstimatorConfig
with default values.  The nested constructors run in the order of the
composite literal. -/
def DefaultWorkEstimatorConfig (g : Globals) : Ptr WorkEstimatorConfig × Globals :=
  let l := defaultListWorkEstimatorConfig g
  let m := defaultMutatingWorkEstimatorConfig l.2
  (some { MinimumSeats := minimumSeats
          MaximumSeats := maximumSeats
          ListWorkEstimatorConfig := l.1
          MutatingWorkEstimatorConfig := m.1 }, m.2)

/-- The method `(c *MutatingWorkEstimatorConfig) eventAdditionalDuration()`:
`return c.EventAdditionalDuration.Duration`.  Selecting a field through a nil
receiver panics.  The result carries the returned duration, the receiver cell
after the call and the globals after the call. -/
def MutatingWorkEstimatorConfig.eventAdditionalDuration
    (c : Ptr MutatingWorkEstimatorConfig) (g : Globals) :
    Except Panic (time.Duration × Ptr MutatingWorkEstimatorConfig × Globals) :=
  match c with
  | none => Except.error Panic.nilPointerDereference
  | some v => Except.ok (v.EventAdditionalDuration.Duration, some v, g)

/-- The method `eventAdditionalDuration` as promoted to `*WorkEstimatorConfig`
through the embedded `*MutatingWorkEstimatorConfig`: `w.eventAdditionalDuration()`
is `w.MutatingWorkEstimatorConfig.eventAdditionalDuration()`.  Loading the
embedded pointer through a nil `w` panics; a nil embedded pointer is passed on
as the receiver. -/
def WorkEstimatorConfig.eventAdditionalDuration
    (w : Ptr WorkEstimatorConfig) (g : Globals) :
    Except Panic (time.Duration × Ptr WorkEstimatorConfig × Globals) :=
  match w with
  | none => Except.error Panic.nilPointerDereference
  | some v =>
    match MutatingWorkEstimatorConfig.eventAdditionalDuration v.MutatingWorkEstimatorConfig g with
    | Except.error e => Except.error e
    | Except.ok (d, c, g1) =>
      Except.ok (d, some { v with MutatingWorkEstimatorConfig := c }, g1)

/-! ## External representation (struct tags, lines 36-63)

The keys and the `omitempty` options below are the struct tags of the source.
The value-level encoding (numbers, booleans, the unit-qualified duration) is
the work of an external loader and is modelled from the specification. -/

/-- Modelled from the spec: the unit suffix of an externally represented
duration ("an explicit unit suffix", section 6); the marshalling code of
`metav1.Duration` is not part of this package. -/
inductive DurationUnit
  | ns
  | us
  | ms
  | s
deriving DecidableEq, Repr

/-- Modelled from the spec: the number of nanoseconds one unit stands for. -/
def DurationUnit.nanos : DurationUnit → time.Duration
  | DurationUnit.ns => time.Nanosecond
  | DurationUnit.us => time.Microsecond
  | DurationUnit.ms => time.Millisecond
  | DurationUnit.s => time.Second

/-- Modelled from the spec: the external representation, a tree of keyed
objects whose leaves are numbers, booleans and unit-qualified durations
(a "numeric-magnitude-plus-unit pair", section 9); the serialization framework
is an external collaborator of this package. -/
inductive JSON
  | null
  | bool (b : Bool)
  | num (q : ℚ)
  | duration (magnitude : Int) (unit : DurationUnit)
  | obj (fields : List (String × JSON))

/-- Failures of the external loader. -/
inductive CodecError
  | unsupportedValue
  | typeMismatch
deriving DecidableEq, Repr

/-- Modelled from the spec: the canonical unit used to re-serialize a stored
duration, the coarsest unit the duration is a whole multiple of. -/
def canonicalUnit (d : time.Duration) : DurationUnit :=
  if d % time.Second = 0 then DurationUnit.s
  else if d % time.Millisecond = 0 then DurationUnit.ms
  else if d % time.Microsecond = 0 then DurationUnit.us
  else DurationUnit.ns

/-- Modelled from the spec: serialization of the unit-qualified duration. -/
def encodeDuration (d : metav1.Duration) : JSON :=
  JSON.duration (d.Duration / (canonicalUnit d.Duration).nanos) (canonicalUnit d.Duration)

/-- Modelled from the spec: a finite number is written as a number; NaN and
the infinities have no external representation. -/
def encodeFloat : float64 → Except CodecError JSON
  | float64.num q => Except.ok (JSON.num q)
  | _ => Except.error CodecError.unsupportedValue

/-- Modelled from the spec: "each field omitted when it holds its zero value"
(`omitempty`): the key is emitted only when `keep` holds. -/
def field (keep : Bool) (key : String) (v : JSON) : List (String × JSON) :=
  if keep then [(key, v)] else []

/-- Serialization of `ListWorkEstimatorConfig`: key `objectsPerSeat,omitempty`. -/
def ListWorkEstimatorConfig.toJSON (c : ListWorkEstimatorConfig) : Except CodecError JSON :=
  match encodeFloat c.ObjectsPerSeat with
  | Except.error e => Except.error e
  | Except.ok o =>
    Except.ok (JSON.obj (field (c.ObjectsPerSeat != float64.num 0) "objectsPerSeat" o))

/-- Serialization of `MutatingWorkEstimatorConfig`: keys `enable,omitempty`,
`eventAdditionalDurationMs,omitempty`, `watchesPerSeat,omitempty`. -/
def MutatingWorkEstimatorConfig.toJSON (c : MutatingWorkEstimatorConfig) :
    Except CodecError JSON :=
  match encodeFloat c.WatchesPerSeat with
  | Except.error e => Except.error e
  | Except.ok w =>
    Except.ok (JSON.obj (
      field c.Enabled "enable" (JSON.bool c.Enabled) ++
      field (c.EventAdditionalDuration.Duration != 0) "eventAdditionalDurationMs"
        (encodeDuration c.EventAdditionalDuration) ++
      field (c.WatchesPerSeat != float64.num 0) "watchesPerSeat" w))

/-- Serialization of an optional nested object: a nil pointer is omitted. -/
def encodePtr {α : Type} (enc : α → Except CodecError JSON) (key : String) :
    Ptr α → Except CodecError (List (String × JSON))
  | none => Except.ok []
  | some v =>
    match enc v with
    | Except.error e => Except.error e
    | Except.ok j => Except.ok [(key, j)]

/-- Serialization of `WorkEstimatorConfig`: keys `listWorkEstimatorConfig,omitempty`,
`mutatingWorkEstimatorConfig,omitempty`, `minimumSeats,omitempty`,
`maximumSeats,omitempty`, in the order of the struct fields. -/
def WorkEstimatorConfig.toJSON (c : WorkEstimatorConfig) : Except CodecError JSON :=
  match encodePtr ListWorkEstimatorConfig.toJSON "listWorkEstimatorConfig"
      c.ListWorkEstimatorConfig with
  | Except.error e => Except.error e
  | Except.ok l =>
    match encodePtr MutatingWorkEstimatorConfig.toJSON "mutatingWorkEstimatorConfig"
        c.MutatingWorkEstimatorConfig with
    | Except.error e => Except.error e
    | Except.ok m =>
      Except.ok (JSON.obj (l ++ m ++
        field (c.MinimumSeats != 0) "minimumSeats" (JSON.num c.MinimumSeats) ++
        field (c.MaximumSeats != 0) "maximumSeats" (JSON.num c.MaximumSeats)))

/-- Modelled from the spec: reading an optional key; an absent key leaves the
zero value `zero` in place. -/
def readField {α : Type} (dec : JSON → Except CodecError α) (zero : α)
    (fields : List (String × JSON)) (key : String) : Except CodecError α :=
  match fields.lookup key with
  | none => Except.ok zero
  | some j => dec j

/-- Modelled from the spec: reading an unsigned integer. -/
def decodeUint : JSON → Except CodecError Nat
  | JSON.num q =>
    if q.den = 1 ∧ 0 ≤ q.num then Except.ok q.num.toNat
    else Except.error CodecError.typeMismatch
  | _ => Except.error CodecError.typeMismatch

/-- Modelled from the spec: reading a floating-point number. -/
def decodeFloat : JSON → Except CodecError float64
  | JSON.num q => Except.ok (float64.num q)
  | _ => Except.error CodecError.typeMismatch

/-- Modelled from the spec: reading a boolean. -/
def decodeBool : JSON → Except CodecError Bool
  | JSON.bool b => Except.ok b
  | _ => Except.error CodecError.typeMismatch

/-- Modelled from the spec: reading a unit-qualified duration, "projection to
a canonical duration". -/
def decodeDuration : JSON → Except CodecError metav1.Duration
  | JSON.duration m u => Except.ok { Duration := m * u.nanos }
  | _ => Except.error CodecError.typeMismatch

/-- Reading a `ListWorkEstimatorConfig` back from its external representation. -/
def ListWorkEstimatorConfig.fromJSON : JSON → Except CodecError ListWorkEstimatorConfig
  | JSON.obj fs =>
    match readField decodeFloat (float64.num 0) fs "objectsPerSeat" with
    | Except.error e => Except.error e
    | Except.ok o => Except.ok { ObjectsPerSeat := o }
  | _ => Except.error CodecError.typeMismatch

/-- Reading a `MutatingWorkEstimatorConfig` back from its external representation. -/
def MutatingWorkEstimatorConfig.fromJSON : JSON → Except CodecError MutatingWorkEstimatorConfig
  | JSON.obj fs =>
    match readField decodeBool false fs "enable" with
    | Except.error e => Except.error e
    | Except.ok en =>
      match readField decodeDuration { Duration := 0 } fs "eventAdditionalDurationMs" with
      | Except.error e => Except.error e
      | Except.ok d =>
        match readField decodeFloat (float64.num 0) fs "watchesPerSeat" with
        | Except.error e => Except.error e
        | Except.ok w => Except.ok { Enabled := en, EventAdditionalDuration := d, WatchesPerSeat := w }
  | _ => Except.error CodecError.typeMismatch

/-- Reading an optional nested object: `null` and an absent key give nil. -/
def decodePtr {α : Type} (dec : JSON → Except CodecError α) : JSON → Except CodecError (Ptr α)
  | JSON.null => Except.ok none
  | j =>
    match dec j with
    | Except.error e => Except.error e
    | Except.ok v => Except.ok (some v)

/-- Reading a `WorkEstimatorConfig` back from its external representation. -/
def WorkEstimatorConfig.fromJSON : JSON → Except CodecError WorkEstimatorConfig
  | JSON.obj fs =>
    match readField (decodePtr ListWorkEstimatorConfig.fromJSON) none fs
        "listWorkEstimatorConfig" with
    | Except.error e => Except.error e
    | Except.ok l =>
      match readField (decodePtr MutatingWorkEstimatorConfig.fromJSON) none fs
          "mutatingWorkEstimatorConfig" with
      | Except.error e => Except.error e
      | Except.ok m =>
        match readField decodeUint 0 fs "minimumSeats" with
        | Except.error e => Except.error e
        | Except.ok lo =>
          match readField decodeUint 0 fs "maximumSeats" with
          | Except.error e => Except.error e
          | Except.ok hi =>
            Except.ok { ListWorkEstimatorConfig := l, MutatingWorkEstimatorConfig := m,
                        MinimumSeats := lo, MaximumSeats := hi }
  | _ => Except.error CodecError.typeMismatch

/-- Serialize an aggregate and read the result back. -/
def roundTrip (c : WorkEstimatorConfig) : Except CodecError WorkEstimatorConfig :=
  match c.toJSON with
  | Except.error e => Except.error e
  | Except.ok j => WorkEstimatorConfig.fromJSON j

/-! ## Evaluation lemmas -/

theorem millisecond_nanos : time.Millisecond = 1000000 := by
  simp [time.Millisecond, time.Microsecond, time.Nanosecond]

theorem init_eventAdditionalDuration : Globals.init.eventAdditionalDuration = 5000000 := by
  simp [Globals.init, millisecond_nanos]

theorem objectsPerSeat_value : float64.ofConst objectsPerSeat = float64.num 100 := by
  simp only [float64.ofConst, objectsPerSeat]
  norm_num

theorem watchesPerSeat_value : float64.ofConst watchesPerSeat = float64.num 10 := by
  simp only [float64.ofConst, watchesPerSeat]
  norm_num

theorem defaultList_eval (g : Globals) :
    defaultListWorkEstimatorConfig g = (some { ObjectsPerSeat := float64.num 100 }, g) := by
  simp only [defaultListWorkEstimatorConfig, objectsPerSeat_value]

theorem defaultMutating_eval (g : Globals) :
    defaultMutatingWorkEstimatorConfig g =
      (some { Enabled := true
              EventAdditionalDuration := { Duration := g.eventAdditionalDuration }
              WatchesPerSeat := float64.num 10 }, g) := by
  simp only [defaultMutatingWorkEstimatorConfig, watchesPerSeat_value,
    enableMutatingWorkEstimator]

theorem default_eval (g : Globals) :
    DefaultWorkEstimatorConfig g =
      (some { ListWorkEstimatorConfig := some { ObjectsPerSeat := float64.num 100 }
              MutatingWorkEstimatorConfig := some
                { Enabled := true
                  EventAdditionalDuration := { Duration := g.eventAdditionalDuration }
                  WatchesPerSeat := float64.num 10 }
              MinimumSeats := 1
              MaximumSeats := 10 }, g) := by
  simp only [DefaultWorkEstimatorConfig, defaultList_eval, defaultMutating_eval,
    minimumSeats, maximumSeats]

/-! ## Default construction -/

/-- C1: `DefaultWorkEstimatorConfig()`, run after package initialisation,
returns an aggregate with MinimumSeats = 1, MaximumSeats = 10, a present list
sub-config with ObjectsPerSeat = 100.0 and a present mutating sub-config with
Enabled = true, EventAdditionalDuration = 5 milliseconds (5,000,000 ns) and
WatchesPerSeat = 10.0; neither nested pointer is nil. -/
theorem DefaultWorkEstimatorConfig_fully_populated :
    ∃ w l m,
      (DefaultWorkEstimatorConfig Globals.init).1 = some w ∧
      w.MinimumSeats = 1 ∧ w.MaximumSeats = 10 ∧
      w.ListWorkEstimatorConfig = some l ∧ l.ObjectsPerSeat = float64.num 100 ∧
      w.MutatingWorkEstimatorConfig = some m ∧ m.Enabled = true ∧
      m.EventAdditionalDuration = { Duration := 5 * time.Millisecond } ∧
      m.EventAdditionalDuration.Duration = 5000000 ∧
      m.WatchesPerSeat = float64.num 10 ∧
      w.ListWorkEstimatorConfig ≠ none ∧ w.MutatingWorkEstimatorConfig ≠ none := by
  refine ⟨_, _, _, by rw [default_eval], rfl, rfl, rfl, rfl, rfl, rfl, ?_, ?_, rfl, ?_, ?_⟩
  · simp [Globals.init]
  · exact init_eventAdditionalDuration
  · simp
  · simp

/-- C5: the aggregate returned by `DefaultWorkEstimatorConfig()` (whatever the
globals hold) has MinimumSeats >= 1 and MinimumSeats <= MaximumSeats, so some
seat count lies in the interval [MinimumSeats, MaximumSeats]. -/
theorem DefaultWorkEstimatorConfig_seat_bounds (g : Globals) :
    ∃ w, (DefaultWorkEstimatorConfig g).1 = some w ∧
      1 ≤ w.MinimumSeats ∧ w.MinimumSeats ≤ w.MaximumSeats ∧
      ∃ n, w.MinimumSeats ≤ n ∧ n ≤ w.MaximumSeats := by
  refine ⟨_, by rw [default_eval], ?_, ?_, 1, ?_, ?_⟩ <;> simp

/-- C7: `defaultListWorkEstimatorConfig()` produces exactly
`{ObjectsPerSeat: 100.0}`, and the list sub-config held by the result of
`DefaultWorkEstimatorConfig()` is value-equal to it. -/
theorem defaultListWorkEstimatorConfig_value (g : Globals) :
    (defaultListWorkEstimatorConfig g).1 = some { ObjectsPerSeat := float64.num 100 } ∧
    ∃ w, (DefaultWorkEstimatorConfig g).1 = some w ∧
      w.ListWorkEstimatorConfig = (defaultListWorkEstimatorConfig g).1 := by
  refine ⟨by rw [defaultList_eval], _, by rw [default_eval], ?_⟩
  rw [defaultList_eval]

/-- C8: `defaultMutatingWorkEstimatorConfig()`, run after package
initialisation, produces exactly `{Enabled: true, EventAdditionalDuration: 5ms,
WatchesPerSeat: 10.0}`, where 5ms is 5,000,000 ns, and the mutating sub-config
held by the result of `DefaultWorkEstimatorConfig()` is value-equal to it. -/
theorem defaultMutatingWorkEstimatorConfig_value :
    (defaultMutatingWorkEstimatorConfig Globals.init).1 =
      some { Enabled := true
             EventAdditionalDuration := { Duration := 5 * time.Millisecond }
             WatchesPerSeat := float64.num 10 } ∧
    5 * time.Millisecond = 5000000 ∧
    ∃ w, (DefaultWorkEstimatorConfig Globals.init).1 = some w ∧
      w.MutatingWorkEstimatorConfig = (defaultMutatingWorkEstimatorConfig Globals.init).1 := by
  refine ⟨?_, ?_, _, by rw [default_eval], ?_⟩
  · rw [defaultMutating_eval]
    simp [Globals.init]
  · rw [millisecond_nanos]
    decide
  · rw [defaultMutating_eval]

/-- C10: in the result of `DefaultWorkEstimatorConfig()`, run after package
initialisation, both per-seat divisors are finite and strictly positive
(ObjectsPerSeat > 0, WatchesPerSeat > 0) and the event additional duration is
strictly positive. -/
theorem DefaultWorkEstimatorConfig_positive :
    ∃ w l m qo qw,
      (DefaultWorkEstimatorConfig Globals.init).1 = some w ∧
      w.ListWorkEstimatorConfig = some l ∧ w.MutatingWorkEstimatorConfig = some m ∧
      l.ObjectsPerSeat = float64.num qo ∧ 0 < qo ∧ l.ObjectsPerSeat.isPositive = true ∧
      m.WatchesPerSeat = float64.num qw ∧ 0 < qw ∧ m.WatchesPerSeat.isPositive = true ∧
      0 < m.EventAdditionalDuration.Duration := by
  refine ⟨_, _, _, 100, 10, by rw [default_eval], rfl, rfl, rfl, ?_, ?_, rfl, ?_, ?_, ?_⟩
  · norm_num
  · simp [float64.isPositive]
  · norm_num
  · simp [float64.isPositive]
  · show 0 < Globals.init.eventAdditionalDuration
    rw [init_eventAdditionalDuration]
    decide

/-- C6: default construction is deterministic.  From any globals, a second call
of `DefaultWorkEstimatorConfig()` made after a first one returns a value-equal
aggregate (equal seat bounds and field-by-field equal pointed-to sub-configs),
and no operation of the package writes the package variable: each of the three
constructors and the accessor (called directly or through the aggregate), when
it returns, returns with the globals it was given. -/
theorem DefaultWorkEstimatorConfig_deterministic (g : Globals) :
    (DefaultWorkEstimatorConfig (DefaultWorkEstimatorConfig g).2).1 =
      (DefaultWorkEstimatorConfig g).1 ∧
    (∃ w1 w2 l1 l2 m1 m2,
      (DefaultWorkEstimatorConfig g).1 = some w1 ∧
      (DefaultWorkEstimatorConfig (DefaultWorkEstimatorConfig g).2).1 = some w2 ∧
      w1.MinimumSeats = w2.MinimumSeats ∧ w1.MaximumSeats = w2.MaximumSeats ∧
      w1.ListWorkEstimatorConfig = some l1 ∧ w2.ListWorkEstimatorConfig = some l2 ∧
      l1.ObjectsPerSeat = l2.ObjectsPerSeat ∧
      w1.MutatingWorkEstimatorConfig = some m1 ∧ w2.MutatingWorkEstimatorConfig = some m2 ∧
      m1.Enabled = m2.Enabled ∧ m1.EventAdditionalDuration = m2.EventAdditionalDuration ∧
      m1.WatchesPerSeat = m2.WatchesPerSeat) ∧
    (DefaultWorkEstimatorConfig g).2 = g ∧
    (defaultListWorkEstimatorConfig g).2 = g ∧
    (defaultMutatingWorkEstimatorConfig g).2 = g ∧
    (∀ c, MutatingWorkEstimatorConfig.eventAdditionalDuration c g =
        Except.error Panic.nilPointerDereference ∨
      ∃ d c1, MutatingWorkEstimatorConfig.eventAdditionalDuration c g = Except.ok (d, c1, g)) ∧
    (∀ w, WorkEstimatorConfig.eventAdditionalDuration w g =
        Except.error Panic.nilPointerDereference ∨
      ∃ d w1, WorkEstimatorConfig.eventAdditionalDuration w g = Except.ok (d, w1, g)) := by
  refine ⟨by simp only [default_eval], ?_, by rw [default_eval], rfl, rfl, ?_, ?_⟩
  · refine ⟨_, _, _, _, _, _, by rw [default_eval], by simp only [default_eval],
      rfl, rfl, rfl, rfl, rfl, rfl, rfl, rfl, rfl, rfl⟩
  · intro c
    cases c with
    | none => exact Or.inl rfl
    | some v => exact Or.inr ⟨_, _, rfl⟩
  · intro w
    cases w with
    | none => exact Or.inl rfl
    | some v =>
      cases h : v.MutatingWorkEstimatorConfig with
      | none =>
        left
        simp [WorkEstimatorConfig.eventAdditionalDuration,
          MutatingWorkEstimatorConfig.eventAdditionalDuration, h]
      | some m =>
        right
        simp [WorkEstimatorConfig.eventAdditionalDuration,
          MutatingWorkEstimatorConfig.eventAdditionalDuration, h]

/-! ## The duration accessor -/

/-- C3: for every MutatingWorkEstimatorConfig (any Enabled, any WatchesPerSeat,
any stored duration, zero and negative values included) the accessor returns
exactly the stored duration, unclamped, unscaled and unconverted, and the
receiver holds the same three fields after the call. -/
theorem eventAdditionalDuration_is_projection
    (enabled : Bool) (d : time.Duration) (watches : float64) (g : Globals) :
    MutatingWorkEstimatorConfig.eventAdditionalDuration
        (some { Enabled := enabled, EventAdditionalDuration := { Duration := d },
                WatchesPerSeat := watches }) g =
      Except.ok (d, some { Enabled := enabled, EventAdditionalDuration := { Duration := d },
                           WatchesPerSeat := watches }, g) :=
  rfl

/-- C4: the accessor applied to the result of
`defaultMutatingWorkEstimatorConfig()`, to the mutating sub-config of the
result of `DefaultWorkEstimatorConfig()`, and through that aggregate itself,
returns exactly 5 milliseconds, which is 5,000,000 nanoseconds. -/
theorem eventAdditionalDuration_of_default :
    MutatingWorkEstimatorConfig.eventAdditionalDuration
        (defaultMutatingWorkEstimatorConfig Globals.init).1
        (defaultMutatingWorkEstimatorConfig Globals.init).2 =
      Except.ok (5000000, (defaultMutatingWorkEstimatorConfig Globals.init).1, Globals.init) ∧
    (∃ w, (DefaultWorkEstimatorConfig Globals.init).1 = some w ∧
      MutatingWorkEstimatorConfig.eventAdditionalDuration w.MutatingWorkEstimatorConfig
          (DefaultWorkEstimatorConfig Globals.init).2 =
        Except.ok (5000000, w.MutatingWorkEstimatorConfig, Globals.init)) ∧
    WorkEstimatorConfig.eventAdditionalDuration (DefaultWorkEstimatorConfig Globals.init).1
        (DefaultWorkEstimatorConfig Globals.init).2 =
      Except.ok (5000000, (DefaultWorkEstimatorConfig Globals.init).1, Globals.init) ∧
    5 * time.Millisecond = 5000000 := by
  refine ⟨?_, ⟨_, by rw [default_eval], ?_⟩, ?_, ?_⟩
  · rw [defaultMutating_eval]
    simp [MutatingWorkEstimatorConfig.eventAdditionalDuration, init_eventAdditionalDuration]
  · rw [default_eval]
    simp [MutatingWorkEstimatorConfig.eventAdditionalDuration, init_eventAdditionalDuration]
  · rw [default_eval]
    simp [WorkEstimatorConfig.eventAdditionalDuration,
      MutatingWorkEstimatorConfig.eventAdditionalDuration, init_eventAdditionalDuration]
  · rw [millisecond_nanos]
    decide

/-- C2 (as stated, refuted): promoted through a WorkEstimatorConfig whose
mutating sub-config is nil, and likewise on a nil receiver directly, the
accessor panics with a nil-pointer dereference and returns no duration. -/
theorem eventAdditionalDuration_panics_on_absent_mutating_config :
    WorkEstimatorConfig.eventAdditionalDuration
        (some { ListWorkEstimatorConfig := some { ObjectsPerSeat := float64.num 100 }
                MutatingWorkEstimatorConfig := none
                MinimumSeats := 1
                MaximumSeats := 10 }) Globals.init =
      Except.error Panic.nilPointerDereference ∧
    MutatingWorkEstimatorConfig.eventAdditionalDuration none Globals.init =
      Except.error Panic.nilPointerDereference ∧
    ¬ ∃ r, WorkEstimatorConfig.eventAdditionalDuration
        (some { ListWorkEstimatorConfig := some { ObjectsPerSeat := float64.num 100 }
                MutatingWorkEstimatorConfig := none
                MinimumSeats := 1
                MaximumSeats := 10 }) Globals.init = Except.ok r := by
  refine ⟨rfl, rfl, ?_⟩
  rintro ⟨r, h⟩
  simp [WorkEstimatorConfig.eventAdditionalDuration,
    MutatingWorkEstimatorConfig.eventAdditionalDuration] at h

/-- C2 (amended): the accessor returns a duration exactly when its receiver is
present.  On every non-nil MutatingWorkEstimatorConfig it returns the stored
duration; on a nil receiver it panics; promoted through a WorkEstimatorConfig
it returns a duration exactly when the aggregate and its mutating sub-config
are both non-nil. -/
theorem eventAdditionalDuration_returns_iff_present (g : Globals) :
    (∀ v, MutatingWorkEstimatorConfig.eventAdditionalDuration (some v) g =
      Except.ok (v.EventAdditionalDuration.Duration, some v, g)) ∧
    (∀ c, (∃ r, MutatingWorkEstimatorConfig.eventAdditionalDuration c g = Except.ok r) ↔
      c ≠ none) ∧
    (∀ c, MutatingWorkEstimatorConfig.eventAdditionalDuration c g =
      Except.error Panic.nilPointerDereference ↔ c = none) ∧
    (∀ w, (∃ r, WorkEstimatorConfig.eventAdditionalDuration w g = Except.ok r) ↔
      ∃ v m, w = some v ∧ v.MutatingWorkEstimatorConfig = some m) := by
  refine ⟨fun _ => rfl, ?_, ?_, ?_⟩
  · intro c
    cases c <;> simp [MutatingWorkEstimatorConfig.eventAdditionalDuration]
  · intro c
    cases c <;> simp [MutatingWorkEstimatorConfig.eventAdditionalDuration]
  · intro w
    cases w with
    | none => simp [WorkEstimatorConfig.eventAdditionalDuration]
    | some v =>
      cases h : v.MutatingWorkEstimatorConfig <;>
        simp [WorkEstimatorConfig.eventAdditionalDuration,
          MutatingWorkEstimatorConfig.eventAdditionalDuration, h]

/-! ## Round trip through the external representation -/

/-! The loader reads back whatever the serializer writes: the round trip holds
for every aggregate that has an external representation at all. -/

theorem decodeDuration_encodeDuration (d : metav1.Duration) :
    decodeDuration (encodeDuration d) = Except.ok d := by
  obtain ⟨n⟩ := d
  simp only [encodeDuration, decodeDuration, canonicalUnit]
  congr 2
  split_ifs with h1 h2 h3
  · exact Int.ediv_mul_cancel (Int.dvd_of_emod_eq_zero h1)
  · exact Int.ediv_mul_cancel (Int.dvd_of_emod_eq_zero h2)
  · exact Int.ediv_mul_cancel (Int.dvd_of_emod_eq_zero h3)
  · simp [DurationUnit.nanos, time.Nanosecond]

theorem decodeUint_num (n : Nat) : decodeUint (JSON.num n) = Except.ok n := by
  simp [decodeUint]

theorem listConfig_fromJSON_toJSON (c : ListWorkEstimatorConfig) (j : JSON)
    (h : c.toJSON = Except.ok j) : ListWorkEstimatorConfig.fromJSON j = Except.ok c := by
  obtain ⟨o⟩ := c
  cases o <;> simp [ListWorkEstimatorConfig.toJSON, encodeFloat] at h
  subst h
  rename_i q
  by_cases hq : q = 0 <;>
    simp [ListWorkEstimatorConfig.fromJSON, field, readField, List.lookup, hq, decodeFloat]

theorem mutatingConfig_fromJSON_toJSON (c : MutatingWorkEstimatorConfig) (j : JSON)
    (h : c.toJSON = Except.ok j) : MutatingWorkEstimatorConfig.fromJSON j = Except.ok c := by
  obtain ⟨en, d, w⟩ := c
  cases w <;> simp [MutatingWorkEstimatorConfig.toJSON, encodeFloat] at h
  subst h
  rename_i q
  obtain ⟨n⟩ := d
  by_cases hq : q = 0 <;> by_cases hn : n = 0 <;> cases en <;>
    simp [MutatingWorkEstimatorConfig.fromJSON, field, readField, List.lookup, hq, hn,
      decodeFloat, decodeBool, decodeDuration_encodeDuration]


theorem listConfig_toJSON_obj (c : ListWorkEstimatorConfig) (j : JSON)
    (h : c.toJSON = Except.ok j) : ∃ fs, j = JSON.obj fs := by
  obtain ⟨o⟩ := c
  cases o <;> simp [ListWorkEstimatorConfig.toJSON, encodeFloat] at h
  exact ⟨_, h.symm⟩

theorem mutatingConfig_toJSON_obj (c : MutatingWorkEstimatorConfig) (j : JSON)
    (h : c.toJSON = Except.ok j) : ∃ fs, j = JSON.obj fs := by
  obtain ⟨en, d, w⟩ := c
  cases w <;> simp [MutatingWorkEstimatorConfig.toJSON, encodeFloat] at h
  exact ⟨_, h.symm⟩

theorem aggregate_fromJSON_toJSON (c : WorkEstimatorConfig) (j : JSON)
    (h : c.toJSON = Except.ok j) : WorkEstimatorConfig.fromJSON j = Except.ok c := by
  obtain ⟨l, m, lo, hi⟩ := c
  simp only [WorkEstimatorConfig.toJSON] at h
  have hl : ∀ fs, encodePtr ListWorkEstimatorConfig.toJSON "listWorkEstimatorConfig" l =
      Except.ok fs →
      (l = none ∧ fs = []) ∨ ∃ v gs, l = some v ∧
        fs = [("listWorkEstimatorConfig", JSON.obj gs)] ∧
        ListWorkEstimatorConfig.fromJSON (JSON.obj gs) = Except.ok v := by
    intro fs hfs
    cases l with
    | none => left; simpa [encodePtr] using hfs.symm
    | some v =>
      right
      cases hv : v.toJSON with
      | error e => simp [encodePtr, hv] at hfs
      | ok jv =>
        obtain ⟨gs, rfl⟩ := listConfig_toJSON_obj v jv hv
        simp [encodePtr, hv] at hfs
        exact ⟨v, gs, rfl, hfs.symm, listConfig_fromJSON_toJSON v _ hv⟩
  have hm : ∀ fs, encodePtr MutatingWorkEstimatorConfig.toJSON "mutatingWorkEstimatorConfig" m =
      Except.ok fs →
      (m = none ∧ fs = []) ∨ ∃ v gs, m = some v ∧
        fs = [("mutatingWorkEstimatorConfig", JSON.obj gs)] ∧
        MutatingWorkEstimatorConfig.fromJSON (JSON.obj gs) = Except.ok v := by
    intro fs hfs
    cases m with
    | none => left; simpa [encodePtr] using hfs.symm
    | some v =>
      right
      cases hv : v.toJSON with
      | error e => simp [encodePtr, hv] at hfs
      | ok jv =>
        obtain ⟨gs, rfl⟩ := mutatingConfig_toJSON_obj v jv hv
        simp [encodePtr, hv] at hfs
        exact ⟨v, gs, rfl, hfs.symm, mutatingConfig_fromJSON_toJSON v _ hv⟩
  cases hle : encodePtr ListWorkEstimatorConfig.toJSON "listWorkEstimatorConfig" l with
  | error e => simp [hle] at h
  | ok lf =>
    cases hme : encodePtr MutatingWorkEstimatorConfig.toJSON "mutatingWorkEstimatorConfig" m with
    | error e => simp [hle, hme] at h
    | ok mf =>
      simp only [hle, hme, Except.ok.injEq] at h
      subst h
      rcases hl lf hle with ⟨rfl, rfl⟩ | ⟨lv, lgs, rfl, rfl, hlv⟩ <;>
      rcases hm mf hme with ⟨rfl, rfl⟩ | ⟨mv, mgs, rfl, rfl, hmv⟩ <;>
      by_cases h1 : lo = 0 <;> by_cases h2 : hi = 0 <;>
        simp [WorkEstimatorConfig.fromJSON, field, readField, List.lookup, h1, h2,
          decodePtr, decodeUint_num, *]

/-- C9: serializing the result of `DefaultWorkEstimatorConfig()` gives the
tree with keys listWorkEstimatorConfig.objectsPerSeat,
mutatingWorkEstimatorConfig.enable / eventAdditionalDurationMs /
watchesPerSeat, minimumSeats and maximumSeats (no field of the default holds
its zero value, so none is omitted), the duration being written as 5 with unit
ms; reading that tree back reproduces the aggregate, every field included. -/
theorem DefaultWorkEstimatorConfig_round_trip :
    ∃ w, (DefaultWorkEstimatorConfig Globals.init).1 = some w ∧
      w.toJSON = Except.ok (JSON.obj [
        ("listWorkEstimatorConfig", JSON.obj [("objectsPerSeat", JSON.num 100)]),
        ("mutatingWorkEstimatorConfig", JSON.obj [
          ("enable", JSON.bool true),
          ("eventAdditionalDurationMs", JSON.duration 5 DurationUnit.ms),
          ("watchesPerSeat", JSON.num 10)]),
        ("minimumSeats", JSON.num 1),
        ("maximumSeats", JSON.num 10)]) ∧
      WorkEstimatorConfig.fromJSON (JSON.obj [
        ("listWorkEstimatorConfig", JSON.obj [("objectsPerSeat", JSON.num 100)]),
        ("mutatingWorkEstimatorConfig", JSON.obj [
          ("enable", JSON.bool true),
          ("eventAdditionalDurationMs", JSON.duration 5 DurationUnit.ms),
          ("watchesPerSeat", JSON.num 10)]),
        ("minimumSeats", JSON.num 1),
        ("maximumSeats", JSON.num 10)]) = Except.ok w ∧
      roundTrip w = Except.ok w := by
  have hunit : canonicalUnit 5000000 = DurationUnit.ms := by
    simp [canonicalUnit, time.Second, millisecond_nanos, time.Microsecond, time.Nanosecond]
  have henc : ∀ w, (DefaultWorkEstimatorConfig Globals.init).1 = some w →
      w.toJSON = Except.ok (JSON.obj [
        ("listWorkEstimatorConfig", JSON.obj [("objectsPerSeat", JSON.num 100)]),
        ("mutatingWorkEstimatorConfig", JSON.obj [
          ("enable", JSON.bool true),
          ("eventAdditionalDurationMs", JSON.duration 5 DurationUnit.ms),
          ("watchesPerSeat", JSON.num 10)]),
        ("minimumSeats", JSON.num 1),
        ("maximumSeats", JSON.num 10)]) := by
    intro w hw
    rw [default_eval, init_eventAdditionalDuration] at hw
    cases hw
    simp [WorkEstimatorConfig.toJSON, encodePtr, ListWorkEstimatorConfig.toJSON,
      MutatingWorkEstimatorConfig.toJSON, encodeFloat, encodeDuration, field, hunit,
      DurationUnit.nanos, millisecond_nanos]
  have hdec : ∀ w, (DefaultWorkEstimatorConfig Globals.init).1 = some w →
      WorkEstimatorConfig.fromJSON (JSON.obj [
        ("listWorkEstimatorConfig", JSON.obj [("objectsPerSeat", JSON.num 100)]),
        ("mutatingWorkEstimatorConfig", JSON.obj [
          ("enable", JSON.bool true),
          ("eventAdditionalDurationMs", JSON.duration 5 DurationUnit.ms),
          ("watchesPerSeat", JSON.num 10)]),
        ("minimumSeats", JSON.num 1),
        ("maximumSeats", JSON.num 10)]) = Except.ok w := by
    intro w hw
    rw [default_eval, init_eventAdditionalDuration] at hw
    cases hw
    simp [WorkEstimatorConfig.fromJSON, readField, List.lookup, decodePtr,
      ListWorkEstimatorConfig.fromJSON, MutatingWorkEstimatorConfig.fromJSON,
      decodeFloat, decodeBool, decodeDuration, decodeUint, DurationUnit.nanos,
      millisecond_nanos]
  refine ⟨_, rfl, henc _ rfl, hdec _ rfl, ?_⟩
  rw [roundTrip, henc _ rfl]
  exact hdec _ rfl

end request
